import Mathlib

/-!
Verification development for the StudyVault client-side scripting layer
(`static/js/main.js` and the main DOM-glue script).

The search-suggestion controller (`initSearchSuggestions`) is embedded as an
explicit event-driven state machine: its mutable captured variables (`timeout`,
the `suggestionsContainer` contents and display style) become fields of a state
record, and the browser event loop becomes a guarded step function over input
events, debounce-timer firings, network-response arrivals and document clicks.
The remaining handlers embedded here (`initStarButtons` count update,
`initAutoHideAlerts` scheduling, `validateFileSize`) are pure functions.
-/

namespace StudyVault

/-- A suggestion record as returned by `GET /api/search/suggest`:
`{name, url, type}` (part_000, lines 201-206 read `item.url`, `item.type`,
`item.name`). -/
structure Suggestion where
  name : String
  url : String
  type : String
deriving DecidableEq, Repr

/-- One rendered suggestion entry: the anchor produced by the template
`<a href="${item.url}" class="suggestion-item"><i class="bi ${...}"></i> ${item.name}</a>`
(part_000, lines 201-206). -/
structure Entry where
  href : String
  icon : String
  label : String
deriving DecidableEq, Repr

/-- Icon class chosen in the template: `item.type === 'folder' ? 'bi-folder' : 'bi-file-earmark'`
(part_000, line 203). -/
def suggestionIcon (item : Suggestion) : String :=
  if item.type = "folder" then "bi-folder" else "bi-file-earmark"

/-- Rendering of one suggestion into its panel entry (part_000, lines 201-206). -/
def renderEntry (item : Suggestion) : Entry :=
  { href := item.url, icon := suggestionIcon item, label := item.name }

/-- Rendering of a response array: `data.map(item => ...)` (part_000, line 201). -/
def renderEntries (data : List Suggestion) : List Entry :=
  data.map renderEntry

/-- Drops leading whitespace characters from a character list. -/
def dropLeadingWs : List Char → List Char
  | [] => []
  | c :: cs => if c.isWhitespace then dropLeadingWs cs else c :: cs

/-- The JavaScript `String.prototype.trim()` used on the query
(part_000, line 184): whitespace stripped from both ends. -/
def jsTrim (text : String) : String :=
  String.mk ((dropLeadingWs (dropLeadingWs text.data).reverse).reverse)

/-- The suggestion panel (`suggestionsContainer`): its `innerHTML` as the list of
rendered entries, and its `style.display` as a visibility flag
(`visible = true` for `'block'`, `false` for `'none'`). -/
structure Panel where
  content : List Entry
  visible : Bool
deriving DecidableEq, Repr

/-- Outcome of one `fetch` round trip, as observed by the chain
`fetch(...).then(res => res.json()).then(data => ...).catch(err => ...)`
(part_000, lines 193-209):
* `netErr`: the transport fails, the `fetch` promise rejects;
* `reply ok2xx body`: an HTTP response arrives with status 2xx iff `ok2xx`;
  `body = none` means its body is not valid JSON (so `res.json()` rejects),
  `body = some data` means it parses as the suggestion array `data`.
Note the code never reads `res.ok` or `res.status`. -/
inductive HttpOutcome where
  | netErr : HttpOutcome
  | reply : Bool → Option (List Suggestion) → HttpOutcome
deriving DecidableEq, Repr

/-- State of one attached suggestion controller.

* `now` — current time in ms (event timestamps are checked against it);
* `timer` — the single debounce slot `timeout`: `some (d, q)` is a live timer
  due at time `d` whose callback will fetch for the captured trimmed query `q`;
* `nextId` — bookkeeping: id given to the next issued request;
* `inflight` — issued requests whose response has not yet arrived;
* `issuedLog` — every request ever issued, in order, with its query;
* `panel` — the suggestion panel;
* `errCount` — number of `console.error('Search error:', err)` calls. -/
structure SuggestState where
  now : Nat
  timer : Option (Nat × String)
  nextId : Nat
  inflight : List (Nat × String)
  issuedLog : List (Nat × String)
  panel : Panel
  errCount : Nat
deriving DecidableEq, Repr

/-- State right after `attach`: panel created empty and hidden, no timer,
nothing issued (part_000, lines 177-180). -/
def initState : SuggestState :=
  { now := 0, timer := none, nextId := 0, inflight := [], issuedLog := [],
    panel := { content := [], visible := false }, errCount := 0 }

/-- Events delivered to the controller by the single cooperative event loop:
an input event with the input's current text, the firing of the debounce
timer, the settlement of an in-flight `fetch` (identified by request id),
and a document-level click whose target is inside the input/panel or not. -/
inductive Ev where
  | input : Nat → String → Ev
  | fire : Nat → Ev
  | respond : Nat → Nat → HttpOutcome → Ev
  | click : Nat → Bool → Ev
deriving DecidableEq, Repr

/-- A non-timer event at time `t` is only deliverable if no live debounce timer
is already due at or before `t` (the event loop would run that callback first). -/
def timerAllows (s : SuggestState) (t : Nat) : Bool :=
  match s.timer with
  | none => true
  | some (d, _) => t < d

/-- The `input` listener body (part_000, lines 182-211): always
`clearTimeout(timeout)`; let `query = this.value.trim()`; if
`query.length < 2` clear the panel's `innerHTML` and hide it and return;
otherwise store a fresh 300ms one-shot timer capturing `query`. -/
def handleInput (s : SuggestState) (t : Nat) (text : String) : SuggestState :=
  let query := jsTrim text
  if query.length < 2 then
    { s with now := t, timer := none, panel := { content := [], visible := false } }
  else
    { s with now := t, timer := some (t + 300, query) }

/-- The response-settlement body (part_000, lines 194-209): a transport
failure or a `res.json()` rejection reaches `.catch` and is logged; a parsed
array `data` is rendered — hidden (content untouched) when empty, otherwise
`innerHTML` replaced by the mapped entries and the panel shown. The HTTP
status is never consulted. -/
def handleResponse (s : SuggestState) (out : HttpOutcome) : SuggestState :=
  match out with
  | .netErr => { s with errCount := s.errCount + 1 }
  | .reply _ none => { s with errCount := s.errCount + 1 }
  | .reply _ (some data) =>
    if data.length = 0 then
      { s with panel := { content := s.panel.content, visible := false } }
    else
      { s with panel := { content := renderEntries data, visible := true } }

/-- One step of the controller's event loop. `none` marks an event that cannot
occur at this point of a real timeline (time running backwards, a timer
firing at the wrong instant, a response for a request never issued, or an
event scheduled past a due timer callback). -/
def step (s : SuggestState) : Ev → Option SuggestState
  | .input t text =>
    if s.now ≤ t ∧ timerAllows s t = true then
      some (handleInput s t text)
    else none
  | .fire t =>
    match s.timer with
    | none => none
    | some (d, q) =>
      if s.now ≤ d ∧ t = d then
        some { s with
          now := d
          timer := none
          nextId := s.nextId + 1
          inflight := s.inflight ++ [(s.nextId, q)]
          issuedLog := s.issuedLog ++ [(s.nextId, q)] }
      else none
  | .respond t id out =>
    if s.now ≤ t ∧ timerAllows s t = true ∧ (s.inflight.any fun p => p.1 = id) = true then
      some { (handleResponse s out) with
        now := t
        inflight := s.inflight.filter fun p => p.1 ≠ id }
    else none
  | .click t inside =>
    if s.now ≤ t ∧ timerAllows s t = true then
      if inside then some { s with now := t }
      else some { s with
        now := t
        panel := { content := s.panel.content, visible := false } }
    else none

/-- Run a list of events from a state; `none` if some event is not deliverable. -/
def runTrace : SuggestState → List Ev → Option SuggestState
  | s, [] => some s
  | s, e :: evs =>
    match step s e with
    | none => none
    | some s' => runTrace s' evs

/-- The input events of a burst given as (time, text) pairs. -/
def inputEvents (l : List (Nat × String)) : List Ev :=
  l.map fun p => Ev.input p.1 p.2

/-- Two consecutive burst members: not earlier, and less than 300ms apart. -/
def burstStep (a b : Nat × String) : Prop :=
  a.1 ≤ b.1 ∧ b.1 < a.1 + 300

instance : DecidableRel burstStep := fun a b =>
  inferInstanceAs (Decidable (a.1 ≤ b.1 ∧ b.1 < a.1 + 300))

end StudyVault

namespace StudyVault

/-- Result of one star-button click response (part_000, lines 55-70):
`data.status === 'starred'` or anything else (rendered as unstarred). -/
inductive StarStatus where
  | starred : StarStatus
  | unstarred : StarStatus
deriving DecidableEq, Repr

/-- Update of the displayed count `countSpan.textContent` (part_000,
lines 61 and 68): `+ 1` on starred, `Math.max(0, c - 1)` otherwise. -/
def starCountUpdate : StarStatus → Int → Int
  | .starred, c => c + 1
  | .unstarred, c => max 0 (c - 1)

/-- An alert element, abstracted to its class list. -/
structure Alert where
  classes : List String
deriving DecidableEq, Repr

/-- An action the auto-hide logic schedules on an alert. -/
inductive AlertAction where
  | fadeOut : AlertAction
  | remove : AlertAction
deriving DecidableEq, Repr

/-- Timed actions `initAutoHideAlerts` schedules for one alert (part_000,
lines 221-231): nothing when the class list contains `alert-permanent`;
otherwise a fade-out at 5000ms and a removal 500ms after that. -/
def autoHideActions (a : Alert) : List (Nat × AlertAction) :=
  if a.classes.contains "alert-permanent" then []
  else [(5000, AlertAction.fadeOut), (5500, AlertAction.remove)]

/-- A member of a file input's `files` list: name and size in bytes. -/
structure JsFile where
  name : String
  size : Nat
deriving DecidableEq, Repr

/-- The file input element: its `files` list and its `value` string. -/
structure FileInput where
  files : List JsFile
  value : String
deriving DecidableEq, Repr

/-- The loop of `validateFileSize` (main.js, lines 41-47): walk `files`; at
the first file with `size > maxSize`, set `input.value = ''` and return
`false`; if none, return `true` with the input untouched. -/
def checkFiles (maxSize : Nat) (input : FileInput) : List JsFile → Bool × FileInput
  | [] => (true, input)
  | f :: rest =>
    if f.size > maxSize then (false, { input with value := "" })
    else checkFiles maxSize input rest

/-- `validateFileSize(input, maxSizeMB)` (main.js, lines 37-49):
`maxSize = maxSizeMB * 1024 * 1024`, then the rejection loop. Returns the
boolean result together with the (possibly cleared) input element. -/
def validateFileSize (input : FileInput) (maxSizeMB : Nat) : Bool × FileInput :=
  checkFiles (maxSizeMB * 1024 * 1024) input input.files

/-- A file-type suggestion, used as concrete response data. -/
def sugFile : Suggestion :=
  { name := "Algebra", url := "/file/1", type := "file" }

/-- The folder-type suggestion of the spec's example response
`[{"name":"Physics 101","url":"/folder/5","type":"folder"}]`. -/
def sugFolder : Suggestion :=
  { name := "Physics 101", url := "/folder/5", type := "folder" }

/-- A concrete file input holding one 3MB file, for runs against a 1MB limit. -/
def bigInput : FileInput :=
  { files := [{ name := "big.pdf", size := 3 * 1024 * 1024 }], value := "big.pdf" }

/-- A concrete mid-session controller state: one live debounce timer due at
300ms for query "ab", one in-flight request (id 0) and a visible panel
showing the rendered folder suggestion. -/
def busyState : SuggestState :=
  { now := 0, timer := some (300, "ab"), nextId := 1, inflight := [(0, "ab")],
    issuedLog := [(0, "ab")],
    panel := { content := renderEntries [sugFolder], visible := true },
    errCount := 0 }

end StudyVault

namespace StudyVault

theorem runTrace_append (evs₁ : List Ev) :
    ∀ (s : SuggestState) (evs₂ : List Ev),
    runTrace s (evs₁ ++ evs₂) = (runTrace s evs₁).bind fun s' => runTrace s' evs₂ := by
  induction evs₁ with
  | nil => intro s evs₂; simp [runTrace]
  | cons e evs ih =>
    intro s evs₂
    simp only [List.cons_append, runTrace]
    cases h : step s e with
    | none => simp
    | some s' => simp [ih]

theorem handleInput_preserves (s : SuggestState) (t : Nat) (text : String) :
    (handleInput s t text).issuedLog = s.issuedLog ∧
    (handleInput s t text).inflight = s.inflight ∧
    (handleInput s t text).nextId = s.nextId ∧
    (handleInput s t text).errCount = s.errCount ∧
    (handleInput s t text).now = t ∧
    (handleInput s t text).timer =
      (if (jsTrim text).length < 2 then none else some (t + 300, jsTrim text)) := by
  unfold handleInput
  by_cases h : (jsTrim text).length < 2 <;> simp [h]

/-- C3. For every input event whose current text has trimmed length below 2,
the handler issues no request (issued log and in-flight set unchanged),
cancels any pending debounce timer, and leaves the panel hidden and empty. -/
theorem input_shortQuery_clears (s s' : SuggestState) (t : Nat) (text : String)
    (hshort : (jsTrim text).length < 2)
    (hstep : step s (Ev.input t text) = some s') :
    s'.panel = { content := [], visible := false } ∧ s'.timer = none ∧
    s'.issuedLog = s.issuedLog ∧ s'.inflight = s.inflight := by
  simp only [step] at hstep
  split at hstep
  · rw [Option.some.injEq] at hstep
    subst hstep
    unfold handleInput
    simp [hshort]
  · exact absurd hstep (by simp)

/-- Witness for C3 at a concrete state with a live timer and visible panel. -/
theorem input_shortQuery_clears_witness :
    ((jsTrim "a").length < 2 ∧
      step busyState (Ev.input 100 "a") =
        some { busyState with
          now := 100
          timer := none
          panel := { content := [], visible := false } }) ∧
    (({ busyState with
          now := 100
          timer := none
          panel := { content := [], visible := false } } : SuggestState).panel =
        { content := [], visible := false } ∧
      ({ busyState with
          now := 100
          timer := none
          panel := { content := [], visible := false } } : SuggestState).timer = none ∧
      ({ busyState with
          now := 100
          timer := none
          panel := { content := [], visible := false } } : SuggestState).issuedLog =
        busyState.issuedLog ∧
      ({ busyState with
          now := 100
          timer := none
          panel := { content := [], visible := false } } : SuggestState).inflight =
        busyState.inflight) :=
  ⟨⟨by decide, by decide⟩,
    input_shortQuery_clears busyState _ 100 "a" (by decide) (by decide)⟩

/-- C8. The star-count update (part_000, lines 55-70) is `c + 1` on a
"starred" response and `max 0 (c - 1)` otherwise, so a non-negative
displayed count is never driven below zero. -/
theorem starCount_update_nonneg (st : StarStatus) (c : Int) :
    starCountUpdate StarStatus.unstarred c = max 0 (c - 1) ∧
    starCountUpdate StarStatus.starred c = c + 1 ∧
    (0 ≤ c → 0 ≤ starCountUpdate st c) := by
  refine ⟨rfl, rfl, fun hc => ?_⟩
  cases st
  · simp only [starCountUpdate]
    omega
  · exact le_max_left 0 (c - 1)

/-- Witness for C8 at count 0 with an "unstarred" response. -/
theorem starCount_update_nonneg_witness :
    (0 : Int) ≤ 0 ∧ 0 ≤ starCountUpdate StarStatus.unstarred 0 :=
  ⟨by decide, (starCount_update_nonneg StarStatus.unstarred 0).2.2 (by decide)⟩

/-- C9. An alert whose class list contains `alert-permanent` gets no
scheduled fade-out or removal from the auto-hide logic; any other alert is
scheduled to fade at 5000ms and be removed at 5500ms. -/
theorem autoHide_permanent_spec (a : Alert) :
    (a.classes.contains "alert-permanent" = true → autoHideActions a = []) ∧
    (a.classes.contains "alert-permanent" = false →
      autoHideActions a = [(5000, AlertAction.fadeOut), (5500, AlertAction.remove)]) := by
  constructor <;> intro h
  · unfold autoHideActions
    rw [if_pos h]
  · unfold autoHideActions
    rw [h]
    rfl

/-- Witness for C9 on one permanent and one ordinary alert. -/
theorem autoHide_permanent_spec_witness :
    ((Alert.mk ["alert", "alert-permanent"]).classes.contains "alert-permanent" = true ∧
      autoHideActions (Alert.mk ["alert", "alert-permanent"]) = []) ∧
    ((Alert.mk ["alert"]).classes.contains "alert-permanent" = false ∧
      autoHideActions (Alert.mk ["alert"]) =
        [(5000, AlertAction.fadeOut), (5500, AlertAction.remove)]) :=
  ⟨⟨by decide, (autoHide_permanent_spec (Alert.mk ["alert", "alert-permanent"])).1 (by decide)⟩,
    ⟨by decide, (autoHide_permanent_spec (Alert.mk ["alert"])).2 (by decide)⟩⟩

theorem checkFiles_eq (maxSize : Nat) (input : FileInput) (l : List JsFile) :
    checkFiles maxSize input l =
      (if l.all (fun f => decide (f.size ≤ maxSize)) then (true, input)
       else (false, { input with value := "" })) := by
  induction l with
  | nil => simp [checkFiles]
  | cons f rest ih =>
    by_cases h : f.size > maxSize
    · have hf : ¬ f.size ≤ maxSize := by omega
      simp [checkFiles, h, hf]
    · have hf : f.size ≤ maxSize := by omega
      simp [checkFiles, h, hf, ih]

/-- C10. `validateFileSize` returns `true` iff every file is at most
`maxSizeMB * 1024 * 1024` bytes; on success the input element is returned
untouched, and on any oversized file it is returned with `value` cleared
together with `false`. -/
theorem validateFileSize_spec (input : FileInput) (maxSizeMB : Nat) :
    ((validateFileSize input maxSizeMB).1 = true ↔
      ∀ f ∈ input.files, f.size ≤ maxSizeMB * 1024 * 1024) ∧
    validateFileSize input maxSizeMB =
      (if input.files.all (fun f => decide (f.size ≤ maxSizeMB * 1024 * 1024)) then
        (true, input)
      else (false, { input with value := "" })) := by
  have h := checkFiles_eq (maxSizeMB * 1024 * 1024) input input.files
  constructor
  · rw [validateFileSize, h]
    by_cases hall : input.files.all (fun f => decide (f.size ≤ maxSizeMB * 1024 * 1024))
    · simp only [hall, if_true]
      simp only [List.all_eq_true, decide_eq_true_iff] at hall
      simpa using hall
    · simp only [hall, if_false]
      simp only [List.all_eq_true, decide_eq_true_iff] at hall
      simpa using hall
  · exact h

/-- Witness for C10: a 3MB file against a 1MB limit is rejected with the
input's value cleared. -/
theorem validateFileSize_spec_witness :
    ((validateFileSize bigInput 1).1 = true ↔
      ∀ f ∈ bigInput.files, f.size ≤ 1 * 1024 * 1024) ∧
    validateFileSize bigInput 1 =
      (if bigInput.files.all (fun f => decide (f.size ≤ 1 * 1024 * 1024)) then
        (true, bigInput)
      else (false, { bigInput with value := "" })) :=
  validateFileSize_spec bigInput 1

end StudyVault

namespace StudyVault

/-- C4 counterexample. The code never inspects the HTTP status: after a first
successful render, a non-2xx reply whose body still parses as a JSON array is
rendered like a success — the panel is replaced (not left in its prior state)
and nothing is logged. -/
theorem nonOk_rendered_cex :
    (runTrace initState [Ev.input 0 "ab", Ev.fire 300,
        Ev.respond 400 0 (HttpOutcome.reply true (some [sugFolder])),
        Ev.input 500 "abcd", Ev.fire 800,
        Ev.respond 900 1 (HttpOutcome.reply false (some [sugFile]))]).map
        (fun s => (s.panel, s.errCount)) =
      some ({ content := renderEntries [sugFile], visible := true }, 0) ∧
    renderEntries [sugFile] ≠ renderEntries [sugFolder] := by decide

/-- C4 (amended). For every lookup settlement that reaches the `.catch`
handler — a transport failure, or a body that is not valid JSON — the error
is logged, the panel keeps its prior visibility and content, the debounce
slot is untouched, and no request is reissued. -/
theorem fetchFailure_leavesPanel (s s' : SuggestState) (t id : Nat) (out : HttpOutcome)
    (hfail : out = HttpOutcome.netErr ∨ ∃ b, out = HttpOutcome.reply b none)
    (hstep : step s (Ev.respond t id out) = some s') :
    s'.panel = s.panel ∧ s'.errCount = s.errCount + 1 ∧
    s'.issuedLog = s.issuedLog ∧ s'.timer = s.timer := by
  simp only [step] at hstep
  split at hstep
  · rw [Option.some.injEq] at hstep
    subst hstep
    rcases hfail with h | ⟨b, h⟩ <;> subst h <;> simp [handleResponse]
  · exact absurd hstep (by simp)

/-- Witness for C4: a transport failure arriving at the busy state. -/
theorem fetchFailure_leavesPanel_witness :
    ((HttpOutcome.netErr = HttpOutcome.netErr ∨
        ∃ b, HttpOutcome.netErr = HttpOutcome.reply b none) ∧
      step busyState (Ev.respond 100 0 HttpOutcome.netErr) =
        some { busyState with now := 100, inflight := [], errCount := 1 }) ∧
    (({ busyState with now := 100, inflight := [], errCount := 1 } : SuggestState).panel =
        busyState.panel ∧
      ({ busyState with now := 100, inflight := [], errCount := 1 } : SuggestState).errCount =
        busyState.errCount + 1 ∧
      ({ busyState with now := 100, inflight := [], errCount := 1 } : SuggestState).issuedLog =
        busyState.issuedLog ∧
      ({ busyState with now := 100, inflight := [], errCount := 1 } : SuggestState).timer =
        busyState.timer) :=
  ⟨⟨Or.inl rfl, by decide⟩,
    fetchFailure_leavesPanel busyState _ 100 0 HttpOutcome.netErr (Or.inl rfl) (by decide)⟩

/-- C5 counterexample. After a successful non-empty render, an empty-array
response only hides the panel: its stored content is NOT cleared, so the
panel does not end up empty. -/
theorem emptyResponse_content_cex :
    (runTrace initState [Ev.input 0 "ab", Ev.fire 300,
        Ev.respond 400 0 (HttpOutcome.reply true (some [sugFolder])),
        Ev.input 500 "abcd", Ev.fire 800,
        Ev.respond 900 1 (HttpOutcome.reply true (some []))]).map (fun s => s.panel) =
      some { content := renderEntries [sugFolder], visible := false } ∧
    renderEntries [sugFolder] ≠ [] := by decide

/-- C5 (amended). Rendering an empty suggestion array hides the panel and
leaves its stored content unchanged (it is not cleared). -/
theorem emptyResponse_hides (s s' : SuggestState) (t id : Nat) (b : Bool)
    (hstep : step s (Ev.respond t id (HttpOutcome.reply b (some []))) = some s') :
    s'.panel.visible = false ∧ s'.panel.content = s.panel.content ∧
    s'.errCount = s.errCount := by
  simp only [step] at hstep
  split at hstep
  · rw [Option.some.injEq] at hstep
    subst hstep
    simp [handleResponse]
  · exact absurd hstep (by simp)

/-- Witness for C5: an empty response at the busy state hides the panel while
the previously rendered folder entry stays stored. -/
theorem emptyResponse_hides_witness :
    step busyState (Ev.respond 100 0 (HttpOutcome.reply true (some []))) =
      some { busyState with now := 100, inflight := [], panel := { content := renderEntries [sugFolder], visible := false } } ∧
    (({ busyState with now := 100, inflight := [], panel := { content := renderEntries [sugFolder], visible := false } } : SuggestState).panel.visible = false ∧
      ({ busyState with now := 100, inflight := [], panel := { content := renderEntries [sugFolder], visible := false } } : SuggestState).panel.content =
        busyState.panel.content ∧
      ({ busyState with now := 100, inflight := [], panel := { content := renderEntries [sugFolder], visible := false } } : SuggestState).errCount =
        busyState.errCount) :=
  ⟨by decide, emptyResponse_hides busyState _ 100 0 true (by decide)⟩

/-- C6. Rendering a non-empty suggestion array makes the panel visible and
its content is exactly one anchor entry per suggestion, labeled with the
suggestion's name, linking to its url, with the folder icon precisely when
`type` is "folder" and the file icon otherwise. -/
theorem nonEmptyResponse_renders (s s' : SuggestState) (t id : Nat) (b : Bool)
    (data : List Suggestion) (hne : data ≠ [])
    (hstep : step s (Ev.respond t id (HttpOutcome.reply b (some data))) = some s') :
    s'.panel.visible = true ∧
    s'.panel.content = data.map (fun item =>
      { href := item.url
        icon := if item.type = "folder" then "bi-folder" else "bi-file-earmark"
        label := item.name }) ∧
    s'.panel.content.length = data.length := by
  simp only [step] at hstep
  split at hstep
  · rw [Option.some.injEq] at hstep
    subst hstep
    have hlen : ¬ data.length = 0 := by simpa using hne
    simp [handleResponse, hlen, renderEntries, renderEntry, suggestionIcon]
  · exact absurd hstep (by simp)

/-- Witness for C6: the spec's example response renders as one entry labeled
"Physics 101" linking to "/folder/5" with the folder icon. -/
theorem nonEmptyResponse_renders_witness :
    ([sugFolder] ≠ ([] : List Suggestion) ∧
      step busyState (Ev.respond 100 0 (HttpOutcome.reply true (some [sugFolder]))) =
        some { busyState with now := 100, inflight := [], panel := { content := [{ href := "/folder/5", icon := "bi-folder", label := "Physics 101" }], visible := true } }) ∧
    (({ busyState with now := 100, inflight := [], panel := { content := [{ href := "/folder/5", icon := "bi-folder", label := "Physics 101" }], visible := true } } : SuggestState).panel.visible = true ∧
      ({ busyState with now := 100, inflight := [], panel := { content := [{ href := "/folder/5", icon := "bi-folder", label := "Physics 101" }], visible := true } } : SuggestState).panel.content =
        [sugFolder].map (fun item =>
          { href := item.url
            icon := if item.type = "folder" then "bi-folder" else "bi-file-earmark"
            label := item.name }) ∧
      ({ busyState with now := 100, inflight := [], panel := { content := [{ href := "/folder/5", icon := "bi-folder", label := "Physics 101" }], visible := true } } : SuggestState).panel.content.length =
        [sugFolder].length) :=
  ⟨⟨by decide, by decide⟩,
    nonEmptyResponse_renders busyState _ 100 0 true [sugFolder] (by decide) (by decide)⟩

/-- C7. A document click outside both the input and the panel hides the panel
while keeping its stored content, the in-flight requests and the issued log
unchanged; a click inside either leaves the panel's visibility (and content)
unchanged. -/
theorem click_dismissal (s s' : SuggestState) (t : Nat) (inside : Bool)
    (hstep : step s (Ev.click t inside) = some s') :
    s'.panel.content = s.panel.content ∧ s'.inflight = s.inflight ∧
    s'.issuedLog = s.issuedLog ∧
    s'.panel.visible = (if inside then s.panel.visible else false) := by
  simp only [step] at hstep
  split at hstep
  · split at hstep <;>
      (rw [Option.some.injEq] at hstep; subst hstep; simp_all)
  · exact absurd hstep (by simp)

/-- Witness for C7: an outside click at the busy state hides the visible panel,
keeps the folder entry stored and leaves the in-flight request alive. -/
theorem click_dismissal_witness :
    step busyState (Ev.click 100 false) =
      some { busyState with now := 100, panel := { content := renderEntries [sugFolder], visible := false } } ∧
    (({ busyState with now := 100, panel := { content := renderEntries [sugFolder], visible := false } } : SuggestState).panel.content =
        busyState.panel.content ∧
      ({ busyState with now := 100, panel := { content := renderEntries [sugFolder], visible := false } } : SuggestState).inflight =
        busyState.inflight ∧
      ({ busyState with now := 100, panel := { content := renderEntries [sugFolder], visible := false } } : SuggestState).issuedLog =
        busyState.issuedLog ∧
      ({ busyState with now := 100, panel := { content := renderEntries [sugFolder], visible := false } } : SuggestState).panel.visible =
        (if false then busyState.panel.visible else false)) :=
  ⟨by decide, click_dismissal busyState _ 100 false (by decide)⟩

end StudyVault

namespace StudyVault

/-- C1 counterexample. R1 is issued for "ab" (id 0), R2 for "abcd" (id 1).
R2's response arrives first and is rendered; R1's response then arrives late
and — with no staleness guard in the code — overwrites the panel with R1's
results, so the later arrival of R1 does change the panel. -/
theorem respond_staleOverwrite_cex :
    (runTrace initState [Ev.input 0 "ab", Ev.fire 300, Ev.input 400 "abcd", Ev.fire 700,
        Ev.respond 800 1 (HttpOutcome.reply true (some [sugFolder]))]).map (fun s => s.panel) =
      some { content := renderEntries [sugFolder], visible := true } ∧
    (runTrace initState [Ev.input 0 "ab", Ev.fire 300, Ev.input 400 "abcd", Ev.fire 700,
        Ev.respond 800 1 (HttpOutcome.reply true (some [sugFolder])),
        Ev.respond 900 0 (HttpOutcome.reply true (some [sugFile]))]).map (fun s => s.panel) =
      some { content := renderEntries [sugFile], visible := true } ∧
    renderEntries [sugFile] ≠ renderEntries [sugFolder] := by decide

/-- C1 (amended). The controller has no staleness guard: every arriving
response with a parseable non-empty body is rendered, so after one response
has been rendered, a later arrival of an earlier request's response
overwrites the panel with its own results — the panel reflects the most
recently arrived response, not the most recently issued request. -/
theorem respond_lastArrivalWins (s s₁ s₂ : SuggestState) (t₂ t₁ id₂ id₁ : Nat)
    (b₂ b₁ : Bool) (data₂ data₁ : List Suggestion)
    (_h₂ : step s (Ev.respond t₂ id₂ (HttpOutcome.reply b₂ (some data₂))) = some s₁)
    (h₁ : step s₁ (Ev.respond t₁ id₁ (HttpOutcome.reply b₁ (some data₁))) = some s₂)
    (hne : data₁ ≠ []) :
    s₂.panel = { content := renderEntries data₁, visible := true } := by
  simp only [step] at h₁
  split at h₁
  · rw [Option.some.injEq] at h₁
    subst h₁
    have hlen : ¬ data₁.length = 0 := by simpa using hne
    simp [handleResponse, hlen]
  · exact absurd h₁ (by simp)

/-- Witness for C1's amended statement on the concrete two-request run. -/
theorem respond_lastArrivalWins_witness :
    (step { now := 700, timer := none, nextId := 2, inflight := [(0, "ab"), (1, "abcd")], issuedLog := [(0, "ab"), (1, "abcd")], panel := { content := [], visible := false }, errCount := 0 }
        (Ev.respond 800 1 (HttpOutcome.reply true (some [sugFolder]))) =
      some { now := 800, timer := none, nextId := 2, inflight := [(0, "ab")], issuedLog := [(0, "ab"), (1, "abcd")], panel := { content := renderEntries [sugFolder], visible := true }, errCount := 0 } ∧
      step { now := 800, timer := none, nextId := 2, inflight := [(0, "ab")], issuedLog := [(0, "ab"), (1, "abcd")], panel := { content := renderEntries [sugFolder], visible := true }, errCount := 0 }
        (Ev.respond 900 0 (HttpOutcome.reply true (some [sugFile]))) =
      some { now := 900, timer := none, nextId := 2, inflight := [], issuedLog := [(0, "ab"), (1, "abcd")], panel := { content := renderEntries [sugFile], visible := true }, errCount := 0 } ∧
      [sugFile] ≠ ([] : List Suggestion)) ∧
    ({ now := 900, timer := none, nextId := 2, inflight := [], issuedLog := [(0, "ab"), (1, "abcd")], panel := { content := renderEntries [sugFile], visible := true }, errCount := 0 } : SuggestState).panel =
      { content := renderEntries [sugFile], visible := true } :=
  ⟨⟨by decide, by decide, by decide⟩,
    respond_lastArrivalWins
      { now := 700, timer := none, nextId := 2, inflight := [(0, "ab"), (1, "abcd")], issuedLog := [(0, "ab"), (1, "abcd")], panel := { content := [], visible := false }, errCount := 0 }
      { now := 800, timer := none, nextId := 2, inflight := [(0, "ab")], issuedLog := [(0, "ab"), (1, "abcd")], panel := { content := renderEntries [sugFolder], visible := true }, errCount := 0 }
      { now := 900, timer := none, nextId := 2, inflight := [], issuedLog := [(0, "ab"), (1, "abcd")], panel := { content := renderEntries [sugFile], visible := true }, errCount := 0 }
      800 900 1 0 true true [sugFolder] [sugFile]
      (by decide) (by decide) (by decide)⟩

/-- Processing a run of input events whose consecutive timestamps are less
than 300ms apart issues nothing and cancels each previous timer: only the
clock, the panel and the debounce slot move, and the final debounce slot is
exactly the one scheduled by the last input. -/
theorem runInputs_spec (l : List (Nat × String)) :
    ∀ (s : SuggestState) (p : Nat × String),
      s.now ≤ p.1 → timerAllows s p.1 = true →
      List.Chain' burstStep (p :: l) →
      ∃ s', runTrace s (inputEvents (p :: l)) = some s' ∧
        s'.issuedLog = s.issuedLog ∧ s'.inflight = s.inflight ∧
        s'.nextId = s.nextId ∧ s'.errCount = s.errCount ∧
        s'.now = (l.getLastD p).1 ∧
        s'.timer = (if (jsTrim (l.getLastD p).2).length < 2 then none
                    else some ((l.getLastD p).1 + 300, jsTrim (l.getLastD p).2)) := by
  induction l with
  | nil =>
    intro s p hnow hallow _
    have hpres := handleInput_preserves s p.1 p.2
    refine ⟨handleInput s p.1 p.2, ?_, ?_⟩
    · simp [inputEvents, runTrace, step, hnow, hallow]
    · simp only [List.getLastD]
      exact ⟨hpres.1, hpres.2.1, hpres.2.2.1, hpres.2.2.2.1, hpres.2.2.2.2.1,
        hpres.2.2.2.2.2⟩
  | cons q rest ih =>
    intro s p hnow hallow hchain
    rw [List.chain'_cons] at hchain
    obtain ⟨⟨hle, hgap⟩, hchain'⟩ := hchain
    have hpres := handleInput_preserves s p.1 p.2
    have hstep : step s (Ev.input p.1 p.2) = some (handleInput s p.1 p.2) := by
      simp [step, hnow, hallow]
    have hnow₁ : (handleInput s p.1 p.2).now ≤ q.1 := by
      rw [hpres.2.2.2.2.1]
      exact hle
    have ht := hpres.2.2.2.2.2
    have hallow₁ : timerAllows (handleInput s p.1 p.2) q.1 = true := by
      by_cases hq : (jsTrim p.2).length < 2
      · rw [if_pos hq] at ht
        simp [timerAllows, ht]
      · rw [if_neg hq] at ht
        simp [timerAllows, ht]
        exact hgap
    obtain ⟨s', hrun, hlog, hinfl, hnext, herr, hnowl, htim⟩ :=
      ih (handleInput s p.1 p.2) q hnow₁ hallow₁ hchain'
    have hcons : runTrace s (inputEvents (p :: q :: rest)) =
        runTrace (handleInput s p.1 p.2) (inputEvents (q :: rest)) := by
      simp [inputEvents, runTrace, hstep]
    refine ⟨s', ?_, ?_, ?_, ?_, ?_, ?_, ?_⟩
    · rw [hcons]
      exact hrun
    · rw [hlog, hpres.1]
    · rw [hinfl, hpres.2.1]
    · rw [hnext, hpres.2.2.1]
    · rw [herr, hpres.2.2.2.1]
    · rw [hnowl, List.getLastD_cons]
    · rw [htim, List.getLastD_cons]

/-- C2 counterexample. A burst of two input events 100ms apart, "ab" then
"a", whose final text is too short: no request is issued at any point (the
issued log stays empty) and no timer is left that could ever fire one. -/
theorem burst_shortFinal_cex :
    runTrace initState [Ev.input 0 "ab", Ev.input 100 "a"] =
      some { initState with now := 100 } ∧
    ({ initState with now := 100 } : SuggestState).issuedLog = [] ∧
    ({ initState with now := 100 } : SuggestState).timer = none ∧
    step { initState with now := 100 } (Ev.fire 400) = none := by decide

/-- C2 (amended). For any burst of input events less than 300ms apart: when
the final text's trimmed length is at least 2, the single surviving debounce
timer fires 300ms after the last input and exactly one request is issued,
carrying the trimmed final text; when the final trimmed text is shorter than
2, the burst ends with no live timer and nothing was issued. -/
theorem burst_issuesExactlyOne (l : List (Nat × String)) (s : SuggestState)
    (p : Nat × String) (hnow : s.now ≤ p.1) (hallow : timerAllows s p.1 = true)
    (hchain : List.Chain' burstStep (p :: l)) :
    (2 ≤ (jsTrim (l.getLastD p).2).length →
      ∃ s', runTrace s (inputEvents (p :: l) ++ [Ev.fire ((l.getLastD p).1 + 300)]) =
          some s' ∧
        s'.issuedLog = s.issuedLog ++ [(s.nextId, jsTrim (l.getLastD p).2)]) ∧
    ((jsTrim (l.getLastD p).2).length < 2 →
      ∃ s', runTrace s (inputEvents (p :: l)) = some s' ∧
        s'.issuedLog = s.issuedLog ∧ s'.timer = none) := by
  obtain ⟨s', hrun, hlog, hinfl, hnext, herr, hnowl, htim⟩ :=
    runInputs_spec l s p hnow hallow hchain
  constructor
  · intro hlong
    have hq : ¬ (jsTrim (l.getLastD p).2).length < 2 := by omega
    rw [if_neg hq] at htim
    have hfire : step s' (Ev.fire ((l.getLastD p).1 + 300)) = some { s' with
        now := (l.getLastD p).1 + 300
        timer := none
        nextId := s'.nextId + 1
        inflight := s'.inflight ++ [(s'.nextId, jsTrim (l.getLastD p).2)]
        issuedLog := s'.issuedLog ++ [(s'.nextId, jsTrim (l.getLastD p).2)] } := by
      have hle : s'.now ≤ (l.getLastD p).1 + 300 := by
        rw [hnowl]
        exact Nat.le_add_right _ _
      simp only [step, htim]
      rw [if_pos ⟨hle, trivial⟩]
    refine ⟨{ s' with
        now := (l.getLastD p).1 + 300
        timer := none
        nextId := s'.nextId + 1
        inflight := s'.inflight ++ [(s'.nextId, jsTrim (l.getLastD p).2)]
        issuedLog := s'.issuedLog ++ [(s'.nextId, jsTrim (l.getLastD p).2)] }, ?_, ?_⟩
    · rw [runTrace_append, hrun]
      show runTrace s' [Ev.fire ((l.getLastD p).1 + 300)] = _
      simp only [runTrace]
      rw [hfire]
    · simp [hlog, hnext]
  · intro hshort
    rw [if_pos hshort] at htim
    exact ⟨s', hrun, hlog, htim⟩

/-- Witness for C2's amended statement: the three-keystroke burst
"p", "ph", "phy" at 0, 100 and 200ms from the fresh controller. -/
theorem burst_issuesExactlyOne_witness :
    ((initState.now ≤ 0 ∧ timerAllows initState 0 = true ∧
        List.Chain' burstStep [(0, "p"), (100, "ph"), (200, "phy")]) ∧
      2 ≤ (jsTrim ([((100 : Nat), "ph"), (200, "phy")].getLastD (0, "p")).2).length) ∧
    ((2 ≤ (jsTrim ([((100 : Nat), "ph"), (200, "phy")].getLastD (0, "p")).2).length →
      ∃ s', runTrace initState (inputEvents ((0, "p") :: [(100, "ph"), (200, "phy")]) ++
            [Ev.fire (([((100 : Nat), "ph"), (200, "phy")].getLastD (0, "p")).1 + 300)]) =
          some s' ∧
        s'.issuedLog = initState.issuedLog ++
          [(initState.nextId, jsTrim ([((100 : Nat), "ph"), (200, "phy")].getLastD (0, "p")).2)]) ∧
    ((jsTrim ([((100 : Nat), "ph"), (200, "phy")].getLastD (0, "p")).2).length < 2 →
      ∃ s', runTrace initState (inputEvents ((0, "p") :: [(100, "ph"), (200, "phy")])) =
          some s' ∧
        s'.issuedLog = initState.issuedLog ∧ s'.timer = none)) :=
  ⟨⟨⟨by decide, by decide,
      List.chain'_cons.mpr ⟨⟨by decide, by decide⟩,
        List.chain'_cons.mpr ⟨⟨by decide, by decide⟩, List.Chain.nil⟩⟩⟩, by decide⟩,
    burst_issuesExactlyOne [(100, "ph"), (200, "phy")] initState (0, "p")
      (by decide) (by decide)
      (List.chain'_cons.mpr ⟨⟨by decide, by decide⟩,
        List.chain'_cons.mpr ⟨⟨by decide, by decide⟩, List.Chain.nil⟩⟩)⟩

end StudyVault
